import Mathlib

/-!
Shallow embedding of the graph-tool pipeline of this repository
(`src/backend/src/agent/tools/graph/…`) and proofs about the frozen claims.

Modelling conventions:
* Python `dict` is modelled as an association list with unique keys in
  insertion order; `dictSet` updates in place or appends, `dictGet` returns
  the first binding, `dictDel` deletes the binding — exactly CPython's
  observable dict behaviour.
* `datetime` values are modelled as natural-number timestamps (seconds).
* Python `float` confidences are modelled as rationals.
* `str.lower` / `str.upper` / `str.title` are modelled on ASCII letters
  (all concrete strings used by the code and the claims are ASCII).
* Fallible external collaborators (the generative model, the HTTP
  transport) are oracle parameters of type `Except String _`: a `.error`
  value is a raised Python exception, `.ok` a normal return.
-/

namespace GraphTools

/-- Python dict lookup: first (and, with unique keys, only) binding. -/
def dictGet {α : Type} : List (String × α) → String → Option α
  | [], _ => none
  | (k, v) :: t, key => if k = key then some v else dictGet t key

/-- Python dict assignment `d[key] = v`: replace in place, else append. -/
def dictSet {α : Type} : List (String × α) → String → α → List (String × α)
  | [], key, v => [(key, v)]
  | (k, w) :: t, key, v =>
      if k = key then (key, v) :: t else (k, w) :: dictSet t key v

/-- Python `del d[key]`: drop the binding for `key`. -/
def dictDel {α : Type} : List (String × α) → String → List (String × α)
  | [], _ => []
  | (k, w) :: t, key => if k = key then t else (k, w) :: dictDel t key

@[simp] theorem dictGet_nil {α : Type} (k : String) :
    dictGet ([] : List (String × α)) k = none := rfl

theorem dictGet_dictSet_self {α : Type} (m : List (String × α)) (k : String) (v : α) :
    dictGet (dictSet m k v) k = some v := by
  induction m with
  | nil => simp [dictGet, dictSet]
  | cons h t ih =>
      obtain ⟨k', w⟩ := h
      by_cases hk : k' = k
      · subst hk; simp [dictGet, dictSet]
      · simp [dictGet, dictSet, hk, ih]

theorem dictGet_dictSet_ne {α : Type} (m : List (String × α)) (k k' : String) (v : α)
    (h : k ≠ k') : dictGet (dictSet m k v) k' = dictGet m k' := by
  induction m with
  | nil => simp [dictGet, dictSet, h]
  | cons hd t ih =>
      obtain ⟨k₀, w⟩ := hd
      by_cases hk : k₀ = k
      · subst hk; simp [dictGet, dictSet, h]
      · simp [dictGet, dictSet, hk, ih]

theorem dictSet_dictSet_self {α : Type} (m : List (String × α)) (k : String) (v w : α) :
    dictSet (dictSet m k v) k w = dictSet m k w := by
  induction m with
  | nil => simp [dictSet]
  | cons hd t ih =>
      obtain ⟨k₀, u⟩ := hd
      by_cases hk : k₀ = k
      · subst hk; simp [dictSet]
      · simp [dictSet, hk, ih]

/-- Number of bindings carrying a key (a Python dict always has 0 or 1). -/
def keyCount {α : Type} (m : List (String × α)) (k : String) : Nat :=
  (m.filter (fun p => p.1 = k)).length

theorem keyCount_eq_zero_of_not_mem {α : Type} {m : List (String × α)} {k : String}
    (h : k ∉ m.map Prod.fst) : keyCount m k = 0 := by
  induction m with
  | nil => rfl
  | cons hd t ih =>
      obtain ⟨k₀, v⟩ := hd
      simp only [List.map_cons, List.mem_cons] at h
      push_neg at h
      have ht : keyCount t k = 0 := ih h.2
      have hne : ¬ (k₀ = k) := fun hc => h.1 hc.symm
      simp only [keyCount, List.filter_cons] at ht ⊢
      simpa [hne] using ht

theorem keyCount_dictSet_eq_one {α : Type} (m : List (String × α)) (k : String) (v : α)
    (hnd : (m.map Prod.fst).Nodup) : keyCount (dictSet m k v) k = 1 := by
  induction m with
  | nil => simp [dictSet, keyCount]
  | cons hd t ih =>
      obtain ⟨k₀, w⟩ := hd
      simp only [List.map_cons, List.nodup_cons] at hnd
      by_cases hk : k₀ = k
      · subst hk
        have h0 : keyCount t k₀ = 0 := keyCount_eq_zero_of_not_mem hnd.1
        simpa [dictSet, keyCount, List.filter_cons] using h0
      · simpa [dictSet, hk, keyCount, List.filter_cons] using ih hnd.2

/-! ## Dataset Registry (`graph_registry.py`) -/

/-- Python `str.lower` (ASCII model), character by character. -/
def pyLower (s : String) : String := ⟨s.data.map Char.toLower⟩

/-- Python truthiness of an optional string (`None` and `""` are falsy). -/
def optTruthy : Option String → Bool
  | none => false
  | some s => s ≠ ""

/-- `SubgraphRecord` of `graph_registry.py` (`last_checked` as a Nat time). -/
structure SubgraphRecord where
  protocol : String
  network : String
  version : Option String
  subgraph_id : String
  name : String
  health_status : String := "unknown"
  last_checked : Nat := 0
  query_count : Nat := 0
  deriving Repr, DecidableEq

/-- `SubgraphRecord.cache_key`: `"-".join([protocol, network] + ([version] if version else []))`. -/
def SubgraphRecord.cacheKey (r : SubgraphRecord) : String :=
  match r.version with
  | some v => if v ≠ "" then r.protocol ++ "-" ++ r.network ++ "-" ++ v
              else r.protocol ++ "-" ++ r.network
  | none => r.protocol ++ "-" ++ r.network

/-- The in-memory cache of `SubgraphRegistry`: key → record, insertion order. -/
abbrev Registry := List (String × SubgraphRecord)

/-- Increment `record.query_count` of the binding at `key` (the mutation
`record.query_count += 1` performed by `find` on a hit). -/
def bumpCount (reg : Registry) (key : String) : Registry :=
  match reg with
  | [] => []
  | (k, r) :: t =>
      if k = key then (k, { r with query_count := r.query_count + 1 }) :: t
      else (k, r) :: bumpCount t key

/-- First record matching protocol+network regardless of version
(step 3 of `find`, iteration in dict order). -/
def fuzzyFind (reg : Registry) (protocol network : String) :
    Option (String × SubgraphRecord) :=
  reg.find? (fun p => p.2.protocol == protocol && p.2.network == network)

/-- `SubgraphRegistry.find`: exact key with version, then key without
version, then first protocol+network match; each hit bumps `query_count`.
Returns the result together with the mutated cache. -/
def registryFind (reg : Registry) (protocol network : String)
    (version : Option String) : Option String × Registry :=
  let exact : Option (Option String × Registry) :=
    match version with
    | some v =>
        if v ≠ "" then
          let key := protocol ++ "-" ++ network ++ "-" ++ v
          match dictGet reg key with
          | some r => some (some r.subgraph_id, bumpCount reg key)
          | none => none
        else none
    | none => none
  match exact with
  | some res => res
  | none =>
      let key := protocol ++ "-" ++ network
      match dictGet reg key with
      | some r => (some r.subgraph_id, bumpCount reg key)
      | none =>
          match fuzzyFind reg protocol network with
          | some (k, r) => (some r.subgraph_id, bumpCount reg k)
          | none => (none, reg)

/-- Python `version.lower() if version else None`. -/
def normVersion : Option String → Option String
  | none => none
  | some v => if v = "" then none else some (pyLower v)

/-- The fresh record constructed by `SubgraphRegistry.add`: lower-cased
names and a `query_count` of 0. -/
def addRecord (protocol network subgraph_id name : String)
    (version : Option String) (health_status : String) (now : Nat) : SubgraphRecord :=
  { protocol := pyLower protocol
    network := pyLower network
    version := normVersion version
    subgraph_id := subgraph_id
    name := name
    health_status := health_status
    last_checked := now
    query_count := 0 }

/-- `SubgraphRegistry.add`: build a fresh record, store it at its composite
key (overwriting any previous record there), persist, return `True`.
(Persistence I/O is outside the model; its failure path returns `False`
without touching the already-mutated in-memory cache.) -/
def registryAdd (reg : Registry) (protocol network subgraph_id name : String)
    (version : Option String) (health_status : String := "unknown")
    (now : Nat := 0) : Registry × Bool :=
  let record := addRecord protocol network subgraph_id name version health_status now
  (dictSet reg record.cacheKey record, true)

/-- `"-".join(parts)` for `parts = [protocol, network] + ([version] if version else [])`,
as computed by `remove` and `update_health`. -/
def compositeKey (protocol network : String) (version : Option String) : String :=
  match version with
  | some v => if v ≠ "" then protocol ++ "-" ++ network ++ "-" ++ v
              else protocol ++ "-" ++ network
  | none => protocol ++ "-" ++ network

/-- `SubgraphRegistry.remove`: delete the binding at the composite key. -/
def registryRemove (reg : Registry) (protocol network : String)
    (version : Option String) : Registry × Bool :=
  match dictGet reg (compositeKey protocol network version) with
  | some _ => (dictDel reg (compositeKey protocol network version), true)
  | none => (reg, false)

/-- `SubgraphRegistry.update_health`: overwrite `health_status` and
`last_checked` of the record at the composite key, if present. -/
def registryUpdateHealth (reg : Registry) (protocol network health_status : String)
    (version : Option String) (now : Nat) : Registry :=
  match dictGet reg (compositeKey protocol network version) with
  | some r =>
      dictSet reg (compositeKey protocol network version)
        { r with health_status := health_status, last_checked := now }
  | none => reg

/-! ### Registry support lemmas -/

theorem dictGet_bumpCount_self (m : Registry) (k : String) :
    dictGet (bumpCount m k) k
      = (dictGet m k).map (fun r => { r with query_count := r.query_count + 1 }) := by
  induction m with
  | nil => simp [bumpCount, dictGet]
  | cons hd t ih =>
      obtain ⟨k₀, r₀⟩ := hd
      by_cases hk : k₀ = k
      · subst hk; simp [bumpCount, dictGet]
      · simp [bumpCount, dictGet, hk, ih]

theorem dictGet_bumpCount_ne (m : Registry) (k k' : String) (h : k' ≠ k) :
    dictGet (bumpCount m k) k' = dictGet m k' := by
  induction m with
  | nil => simp [bumpCount]
  | cons hd t ih =>
      obtain ⟨k₀, r₀⟩ := hd
      by_cases hk : k₀ = k
      · subst hk
        simp [bumpCount, dictGet, Ne.symm h]
      · simp only [bumpCount, hk, if_false, dictGet]
        by_cases hk' : k₀ = k'
        · simp [hk']
        · simp [hk', ih]

theorem dictGet_dictDel_ne {α : Type} (m : List (String × α)) (k k' : String)
    (h : k' ≠ k) : dictGet (dictDel m k) k' = dictGet m k' := by
  induction m with
  | nil => simp [dictDel]
  | cons hd t ih =>
      obtain ⟨k₀, v⟩ := hd
      by_cases hk : k₀ = k
      · subst hk; simp [dictDel, dictGet, Ne.symm h]
      · simp only [dictDel, hk, if_false, dictGet]
        by_cases hk' : k₀ = k'
        · simp [hk']
        · simp [hk', ih]

theorem dictGet_eq_none_of_not_mem {α : Type} {m : List (String × α)} {k : String}
    (h : k ∉ m.map Prod.fst) : dictGet m k = none := by
  induction m with
  | nil => rfl
  | cons hd t ih =>
      obtain ⟨k₀, v⟩ := hd
      simp only [List.map_cons, List.mem_cons] at h
      push_neg at h
      simp [dictGet, Ne.symm h.1, ih h.2]

theorem dictGet_dictDel_self {α : Type} (m : List (String × α)) (k : String)
    (hnd : (m.map Prod.fst).Nodup) : dictGet (dictDel m k) k = none := by
  induction m with
  | nil => simp [dictDel]
  | cons hd t ih =>
      obtain ⟨k₀, v⟩ := hd
      simp only [List.map_cons, List.nodup_cons] at hnd
      by_cases hk : k₀ = k
      · subst hk
        simp only [dictDel, if_pos rfl]
        exact dictGet_eq_none_of_not_mem hnd.1
      · simp only [dictDel, hk, if_false, dictGet, hk]
        exact ih hnd.2

/-! ### Registry operations as a small step language (for the query-count
invariant; `add` is treated separately because it installs a fresh record). -/

inductive RegOp where
  | findQ (protocol network : String) (version : Option String)
  | removeQ (protocol network : String) (version : Option String)
  | healthQ (protocol network health_status : String) (version : Option String) (now : Nat)

def applyRegOp (reg : Registry) : RegOp → Registry
  | .findQ p n v => (registryFind reg p n v).2
  | .removeQ p n v => (registryRemove reg p n v).1
  | .healthQ p n h v now => registryUpdateHealth reg p n h v now

theorem registryFind_snd_cases (reg : Registry) (p n : String) (v : Option String) :
    (registryFind reg p n v).2 = reg ∨
      ∃ k, (registryFind reg p n v).2 = bumpCount reg k := by
  have step23 :
      (match dictGet reg (p ++ "-" ++ n) with
        | some r => ((some r.subgraph_id, bumpCount reg (p ++ "-" ++ n)) : Option String × Registry)
        | none =>
            match fuzzyFind reg p n with
            | some (k, r) => (some r.subgraph_id, bumpCount reg k)
            | none => (none, reg)).2 = reg ∨
      ∃ k, (match dictGet reg (p ++ "-" ++ n) with
        | some r => ((some r.subgraph_id, bumpCount reg (p ++ "-" ++ n)) : Option String × Registry)
        | none =>
            match fuzzyFind reg p n with
            | some (k, r) => (some r.subgraph_id, bumpCount reg k)
            | none => (none, reg)).2 = bumpCount reg k := by
    cases h2 : dictGet reg (p ++ "-" ++ n) with
    | some r => exact Or.inr ⟨_, rfl⟩
    | none =>
        cases h3 : fuzzyFind reg p n with
        | some kr => exact Or.inr ⟨kr.1, by obtain ⟨k, r⟩ := kr; rfl⟩
        | none => exact Or.inl rfl
  cases v with
  | none => simpa [registryFind] using step23
  | some s =>
      by_cases hs : s = ""
      · subst hs; simpa [registryFind] using step23
      · cases h1 : dictGet reg (p ++ "-" ++ n ++ "-" ++ s) with
        | some r =>
            exact Or.inr ⟨p ++ "-" ++ n ++ "-" ++ s, by simp [registryFind, hs, h1]⟩
        | none => simpa [registryFind, hs, h1] using step23

/-- C1 counterexample input: a mixed-case add followed by the same-case find. -/
def c1Registry : Registry :=
  (registryAdd [] "Uniswap" "Ethereum" "ID123" "Uniswap V3" none).1

/-- C1: the claim's round trip fails on mixed-case names: `add` lower-cases
the stored key ("uniswap-ethereum") while `find` looks up the raw-case key
("Uniswap-Ethereum") and compares raw-case fields, so `find("Uniswap",
"Ethereum")` returns `None` right after a successful
`add("Uniswap", "Ethereum", "ID123", ...)`. -/
theorem claim_C1_counterexample :
    (registryAdd [] "Uniswap" "Ethereum" "ID123" "Uniswap V3" none).2 = true ∧
    (registryFind c1Registry "Uniswap" "Ethereum" none).1 = none := by
  constructor
  · rfl
  · decide

/-- C1 (amended): for lower-case protocol and network names (and a version
that is absent, empty, or lower-case), `find(p, n, v)` right after a
successful `add(p, n, dataset_id, name, version=v)` returns that same
`dataset_id`, whatever the prior registry state. -/
theorem claim_C1_roundtrip (reg : Registry) (p n sid name hs : String)
    (v : Option String) (now : Nat)
    (hp : pyLower p = p) (hn : pyLower n = n)
    (hv : ∀ s, v = some s → pyLower s = s) :
    (registryAdd reg p n sid name v hs now).2 = true ∧
    (registryFind (registryAdd reg p n sid name v hs now).1 p n v).1 = some sid := by
  refine ⟨rfl, ?_⟩
  cases v with
  | none =>
      simp [registryAdd, addRecord, normVersion, SubgraphRecord.cacheKey, hp, hn,
            registryFind, dictGet_dictSet_self]
  | some s =>
      by_cases hs' : s = ""
      · subst hs'
        simp [registryAdd, addRecord, normVersion, SubgraphRecord.cacheKey, hp, hn,
              registryFind, dictGet_dictSet_self]
      · have hls : pyLower s = s := hv s rfl
        simp [registryAdd, addRecord, normVersion, SubgraphRecord.cacheKey, hp, hn,
              hs', hls, registryFind, dictGet_dictSet_self]

/-- Witness for `claim_C1_roundtrip` at a concrete lower-case input. -/
theorem claim_C1_roundtrip_witness :
    (registryAdd [] "uniswap" "ethereum" "ID123" "Uniswap V3" (some "v3") "unknown" 0).2 = true ∧
    (registryFind (registryAdd [] "uniswap" "ethereum" "ID123" "Uniswap V3"
        (some "v3") "unknown" 0).1 "uniswap" "ethereum" (some "v3")).1 = some "ID123" :=
  claim_C1_roundtrip [] "uniswap" "ethereum" "ID123" "Uniswap V3" "unknown"
    (some "v3") 0 (by decide) (by decide) (by intro s h; cases h; decide)

/-- C6 counterexample state 1: one record, freshly added. -/
def c6Reg1 : Registry :=
  (registryAdd [] "uniswap" "ethereum" "ID123" "Uniswap V3" none).1

/-- C6 counterexample state 2: after one successful `find`, `query_count` is 1. -/
def c6Reg2 : Registry := (registryFind c6Reg1 "uniswap" "ethereum" none).2

/-- C6 counterexample state 3: `add` with identical arguments overwrites the
record with a fresh one whose `query_count` is 0. -/
def c6Reg3 : Registry :=
  (registryAdd c6Reg2 "uniswap" "ethereum" "ID123" "Uniswap V3" none "unknown" 1).1

/-- C6: the claim fails for `add`: overwriting a key installs a fresh record
with `query_count = 0`, so the count observed at "uniswap-ethereum" drops
from 1 back to 0. -/
theorem claim_C6_counterexample :
    (dictGet c6Reg2 "uniswap-ethereum").map SubgraphRecord.query_count = some 1 ∧
    (dictGet c6Reg3 "uniswap-ethereum").map SubgraphRecord.query_count = some 0 := by
  decide

/-- C6 (amended): `query_count` at any key is monotonically non-decreasing
across `find`, `remove` and `update_health` (on a well-formed registry with
unique keys); `add` is excluded because it overwrites the record at its key
with a fresh one whose `query_count` is 0. -/
theorem claim_C6_query_count_monotone (reg : Registry) (op : RegOp) (k : String)
    (hnd : (reg.map Prod.fst).Nodup) (r r' : SubgraphRecord)
    (hb : dictGet reg k = some r)
    (ha : dictGet (applyRegOp reg op) k = some r') :
    r.query_count ≤ r'.query_count := by
  cases op with
  | findQ p n v =>
      rcases registryFind_snd_cases reg p n v with h | ⟨k₀, h⟩
      · rw [applyRegOp, h, hb] at ha
        cases ha; exact le_refl _
      · rw [applyRegOp, h] at ha
        by_cases hk : k = k₀
        · subst hk
          rw [dictGet_bumpCount_self, hb] at ha
          cases ha; simp
        · rw [dictGet_bumpCount_ne _ _ _ hk, hb] at ha
          cases ha; exact le_refl _
  | removeQ p n v =>
      rw [applyRegOp] at ha
      unfold registryRemove at ha
      cases hget : dictGet reg (compositeKey p n v) with
      | some r₀ =>
          rw [hget] at ha
          simp only at ha
          by_cases hk : k = compositeKey p n v
          · subst hk
            rw [dictGet_dictDel_self reg _ hnd] at ha
            cases ha
          · rw [dictGet_dictDel_ne _ _ _ hk] at ha
            rw [hb] at ha
            cases ha; exact le_refl _
      | none =>
          rw [hget] at ha
          simp only at ha
          rw [hb] at ha
          cases ha; exact le_refl _
  | healthQ p n h v now =>
      rw [applyRegOp] at ha
      unfold registryUpdateHealth at ha
      cases hget : dictGet reg (compositeKey p n v) with
      | some r₀ =>
          rw [hget] at ha
          simp only at ha
          by_cases hk : k = compositeKey p n v
          · subst hk
            rw [dictGet_dictSet_self] at ha
            rw [hb] at hget
            cases hget
            cases ha; exact le_refl _
          · rw [dictGet_dictSet_ne _ _ _ _ (fun hc => hk hc.symm)] at ha
            rw [hb] at ha
            cases ha; exact le_refl _
      | none =>
          rw [hget] at ha
          simp only at ha
          rw [hb] at ha
          cases ha; exact le_refl _

/-- Witness for `claim_C6_query_count_monotone` at a concrete input. -/
theorem claim_C6_query_count_monotone_witness :
    (1 : Nat) ≤ 1 :=
  claim_C6_query_count_monotone c6Reg2 (.findQ "nosuch" "none" none)
    "uniswap-ethereum" (by decide)
    { protocol := "uniswap", network := "ethereum", version := none,
      subgraph_id := "ID123", name := "Uniswap V3", health_status := "unknown",
      last_checked := 0, query_count := 1 }
    { protocol := "uniswap", network := "ethereum", version := none,
      subgraph_id := "ID123", name := "Uniswap V3", health_status := "unknown",
      last_checked := 0, query_count := 1 }
    (by decide) (by decide)

/-- C8: `add` is idempotent: a second `add` with identical arguments yields
exactly the registry of a single call, and the composite key holds exactly
one record (for a well-formed registry with unique keys). The call
timestamps `t1`, `t2` are ambient (`datetime.now()`), not arguments. -/
theorem claim_C8_add_idempotent (reg : Registry) (p n sid name hs : String)
    (v : Option String) (t1 t2 : Nat)
    (hnd : (reg.map Prod.fst).Nodup) :
    registryAdd (registryAdd reg p n sid name v hs t1).1 p n sid name v hs t2
      = registryAdd reg p n sid name v hs t2 ∧
    keyCount (registryAdd (registryAdd reg p n sid name v hs t1).1
        p n sid name v hs t2).1
      (addRecord p n sid name v hs t2).cacheKey = 1 := by
  have hkey : (addRecord p n sid name v hs t1).cacheKey
      = (addRecord p n sid name v hs t2).cacheKey := rfl
  constructor
  · simp only [registryAdd]
    rw [hkey, dictSet_dictSet_self]
  · simp only [registryAdd]
    rw [hkey, dictSet_dictSet_self]
    exact keyCount_dictSet_eq_one _ _ _ hnd

/-- Witness for `claim_C8_add_idempotent` at a concrete input. -/
theorem claim_C8_add_idempotent_witness :
    registryAdd (registryAdd [] "uniswap" "ethereum" "ID123" "Uniswap V3"
        (some "v3") "unknown" 0).1 "uniswap" "ethereum" "ID123" "Uniswap V3"
        (some "v3") "unknown" 1
      = registryAdd [] "uniswap" "ethereum" "ID123" "Uniswap V3"
        (some "v3") "unknown" 1 ∧
    keyCount (registryAdd (registryAdd [] "uniswap" "ethereum" "ID123" "Uniswap V3"
        (some "v3") "unknown" 0).1 "uniswap" "ethereum" "ID123" "Uniswap V3"
        (some "v3") "unknown" 1).1
      (addRecord "uniswap" "ethereum" "ID123" "Uniswap V3" (some "v3") "unknown" 1).cacheKey
      = 1 :=
  claim_C8_add_idempotent [] "uniswap" "ethereum" "ID123" "Uniswap V3" "unknown"
    (some "v3") 0 1 (by decide)

/-! ## Query Execution Engine (`query_engine.py`) -/

/-- A GraphQL result dict (values abstracted to strings); Python truthiness
of a dict is non-emptiness. -/
abbrev GraphData := List (String × String)

/-- `CACHE_SETTINGS` of `graph_config.py`. -/
def CACHE_ENABLED : Bool := true

/-- `CACHE_SETTINGS["ttl"]` (seconds). -/
def CACHE_TTL : Nat := 300

/-- Engine state: the query cache (`key → (data, cached_at)`) plus a count
of transport invocations (`graph_client.execute_query` calls), which the
Python object performs as side effects. -/
structure EngineState where
  cache : List (String × (GraphData × Nat))
  calls : Nat
  deriving Repr, DecidableEq

/-- `f"{subgraph_id}:{hash(query)}:{hash(str(variables))}"`. Python's
per-process string hash is modelled by the deterministic `String.hash`;
`variables` is carried in its `str(...)` rendering. -/
def mkCacheKey (subgraph_id query vars : String) : String :=
  subgraph_id ++ ":" ++ toString query.hash ++ ":" ++ toString vars.hash

/-- `QueryEngine._cleanup_cache`: drop entries with `now - time > ttl`. -/
def cleanupCache (cache : List (String × (GraphData × Nat))) (now : Nat) :
    List (String × (GraphData × Nat)) :=
  cache.filter (fun p => !(CACHE_TTL < now - p.2.2))

/-- `QueryEngine.execute_query`. The transport outcome for this call
(`graph_client.execute_query`, `None` on any transport failure) is the
oracle `transportResult`; it is consumed, and `calls` incremented, only on
a cache miss. On a truthy (non-`None`, non-empty) result the entry is
cached and expired entries are swept. -/
def executeQuery (st : EngineState) (now : Nat) (transportResult : Option GraphData)
    (subgraph_id query vars : String) (use_cache : Bool := true) :
    Option GraphData × EngineState :=
  let cache_key := mkCacheKey subgraph_id query vars
  let cached : Option GraphData :=
    if use_cache && CACHE_ENABLED then
      match dictGet st.cache cache_key with
      | some (data, time) => if now - time < CACHE_TTL then some data else none
      | none => none
    else none
  match cached with
  | some data => (some data, st)
  | none =>
      let result := transportResult
      let calls := st.calls + 1
      match result with
      | some data =>
          if data ≠ [] && use_cache && CACHE_ENABLED then
            (some data,
             ⟨cleanupCache (dictSet st.cache cache_key (data, now)) now, calls⟩)
          else (some data, ⟨st.cache, calls⟩)
      | none => (none, ⟨st.cache, calls⟩)

/-- C2: the claim is false when the transport result is not cacheable: a
`None` (failed) response is never cached (`if result and use_cache ...`),
so two identical calls 1 second apart — well within the 300 s TTL — invoke
the transport twice, not at most once. -/
theorem claim_C2_counterexample :
    1 - 0 < CACHE_TTL ∧
    (executeQuery (executeQuery ⟨[], 0⟩ 0 none "S" "q" "v" true).2
        1 none "S" "q" "v" true).2.calls = 2 := by
  decide

/-- C2 (amended): starting from an empty cache, if the first call's
transport result is truthy (non-`None` and non-empty) then two identical
`use_cache=true` calls within the TTL invoke the transport exactly once in
total (the second is served from cache and returns the same data); if the
second call instead happens after the TTL has elapsed, a second transport
invocation occurs. -/
theorem claim_C2_cache_ttl (calls0 now1 now2 : Nat) (d : GraphData)
    (r2 : Option GraphData) (sid q vars : String) (hd : d ≠ []) :
    let st1 := (executeQuery ⟨[], calls0⟩ now1 (some d) sid q vars true).2
    let second := executeQuery st1 now2 r2 sid q vars true
    (now2 - now1 < CACHE_TTL → second.2.calls = calls0 + 1 ∧ second.1 = some d) ∧
    (CACHE_TTL ≤ now2 - now1 → second.2.calls = calls0 + 2) := by
  have hkey : dictGet (dictSet ([] : List (String × (GraphData × Nat)))
      (mkCacheKey sid q vars) (d, now1)) (mkCacheKey sid q vars) = some (d, now1) :=
    dictGet_dictSet_self _ _ _
  intro st1 second
  have hst1 : st1 = ⟨[(mkCacheKey sid q vars, (d, now1))], calls0 + 1⟩ := by
    show (executeQuery ⟨[], calls0⟩ now1 (some d) sid q vars true).2 = _
    simp [executeQuery, CACHE_ENABLED, hd, cleanupCache, dictSet, CACHE_TTL]
  constructor
  · intro hlt
    have : second = (some d, st1) := by
      show executeQuery st1 now2 r2 sid q vars true = _
      rw [hst1]
      simp [executeQuery, CACHE_ENABLED, dictGet, hlt]
    rw [this, hst1]
    exact ⟨rfl, rfl⟩
  · intro hge
    have hnlt : ¬ (now2 - now1 < CACHE_TTL) := not_lt.mpr hge
    show (executeQuery st1 now2 r2 sid q vars true).2.calls = calls0 + 2
    rw [hst1]
    cases r2 with
    | none => simp [executeQuery, CACHE_ENABLED, dictGet, hnlt]
    | some d2 =>
        by_cases h2 : d2 = []
        · subst h2
          simp [executeQuery, CACHE_ENABLED, dictGet, hnlt]
        · simp [executeQuery, CACHE_ENABLED, dictGet, hnlt, h2, cleanupCache]

/-- Witness for `claim_C2_cache_ttl` at a concrete input. -/
theorem claim_C2_cache_ttl_witness :
    (0 - 0 < CACHE_TTL →
      (executeQuery (executeQuery ⟨[], 0⟩ 0 (some [("pools", "[]")]) "S" "q" "v" true).2
          0 none "S" "q" "v" true).2.calls = 0 + 1 ∧
      (executeQuery (executeQuery ⟨[], 0⟩ 0 (some [("pools", "[]")]) "S" "q" "v" true).2
          0 none "S" "q" "v" true).1 = some [("pools", "[]")]) ∧
    (CACHE_TTL ≤ 0 - 0 →
      (executeQuery (executeQuery ⟨[], 0⟩ 0 (some [("pools", "[]")]) "S" "q" "v" true).2
          0 none "S" "q" "v" true).2.calls = 0 + 2) :=
  claim_C2_cache_ttl 0 0 0 [("pools", "[]")] none "S" "q" "v" (by decide)

/-! ## `QueryEngine.execute_natural_language_query` (C3)

The three pipeline stages — `graphql_builder.build_query`, the engine's own
`execute_query`, and `graphql_builder.format_result` — are oracle functions
returning `Except String _` (an `.error` is an exception raised by that
stage, all caught by the method's single `try/except`). -/

/-- A JSON-ish variable value bound in a GraphQL variables dict. -/
inductive PyVal where
  | int (n : Int)
  | str (s : String)
  deriving Repr, DecidableEq

/-- The dict returned by `GraphQLBuilder.build_query` /
`_validate_and_fix_query` / `_get_fallback_query`. -/
structure QueryResult where
  query : String
  /-- the Python dict key "variables" (`variables` is reserved in Lean) -/
  varMap : List (String × PyVal)
  explanation : String
  deriving Repr, DecidableEq

/-- The `protocol_context` dict handed to the GraphQL builder. -/
structure ProtocolContext where
  name : String
  network : String
  description : String
  entities : List String
  categories : List String
  deriving Repr, DecidableEq

/-- Python `str.title` (ASCII model): first letter of each word upper-cased,
the rest lower-cased. -/
def pyTitleAux : List Char → Bool → List Char
  | [], _ => []
  | c :: t, prevAlpha =>
      (if prevAlpha then c.toLower else c.toUpper) :: pyTitleAux t c.isAlpha

def pyTitle (s : String) : String := ⟨pyTitleAux s.data false⟩

/-- The context dict passed to `execute_natural_language_query`. -/
structure NLContext where
  user_query : String
  protocol : String
  network : String
  version : Option String
  subgraph_id : String
  confidence : ℚ
  source : String
  deriving Repr, DecidableEq

/-- The `query_context` sub-dict of a successful execution result. -/
structure QueryContext where
  explanation : String
  graphql_query : String
  /-- the Python dict key "variables" -/
  varMap : List (String × PyVal)
  subgraph_id : String
  protocol : String
  network : String
  deriving Repr, DecidableEq

/-- The result dict of `execute_natural_language_query` (absent keys are
`none`). -/
structure ExecResult where
  success : Bool
  error : Option String
  formatted_result : String
  data : Option GraphData
  query_context : Option QueryContext
  deriving Repr, DecidableEq

/-- The dict built by the method's `except Exception as e` handler:
`{"success": False, "error": str(e), "formatted_result": f"❌ 查询失败: {str(e)}"}`. -/
def excResult (e : String) : ExecResult :=
  { success := false, error := some e,
    formatted_result := "❌ 查询失败: " ++ e, data := none, query_context := none }

/-- The `protocol_context` constructed inside `execute_natural_language_query`. -/
def nlProtocolContext (ctx : NLContext) : ProtocolContext :=
  { name := pyTitle ctx.protocol ++ " Protocol"
    network := ctx.network
    description := pyTitle ctx.protocol ++ " Protocol on " ++ pyTitle ctx.network
    entities := []
    categories := ["DeFi"] }

/-- `QueryEngine.execute_natural_language_query`: build → execute → format,
with the non-raising failure branches returning `formatted_result = ""` and
any raised exception converted by the handler to `excResult`. -/
def executeNaturalLanguageQuery
    (build : String → ProtocolContext → Except String QueryResult)
    (execQ : String → String → List (String × PyVal) → Except String (Option GraphData))
    (fmt : GraphData → String → String → Except String String)
    (ctx : NLContext) : ExecResult :=
  match build ctx.user_query (nlProtocolContext ctx) with
  | .error e => excResult e
  | .ok qr =>
      if qr.query = "" then
        { success := false, error := some "GraphQL Builder 构建查询失败",
          formatted_result := "", data := none, query_context := none }
      else
        match execQ ctx.subgraph_id qr.query qr.varMap with
        | .error e => excResult e
        | .ok none =>
            { success := false, error := some "GraphQL 查询执行失败",
              formatted_result := "", data := none, query_context := none }
        | .ok (some d) =>
            if d = [] then
              { success := false, error := some "GraphQL 查询执行失败",
                formatted_result := "", data := none, query_context := none }
            else
              match fmt d qr.explanation ctx.user_query with
              | .error e => excResult e
              | .ok f =>
                  { success := true, error := none, formatted_result := f,
                    data := some d,
                    query_context := some
                      { explanation := qr.explanation, graphql_query := qr.query,
                        varMap := qr.varMap, subgraph_id := ctx.subgraph_id,
                        protocol := ctx.protocol, network := ctx.network } }

/-- A concrete context for the C3 theorems. -/
def c3Ctx : NLContext :=
  { user_query := "tvl of uniswap", protocol := "uniswap", network := "ethereum",
    version := none, subgraph_id := "ID123", confidence := 0.8, source := "registry" }

/-- C3: the claim's "empty formatted text field" is false for raised
exceptions: the `except` handler fills `formatted_result` with the
non-empty marker `"❌ 查询失败: {e}"` (an empty `formatted_result` occurs
only in the non-raising failure branches). -/
theorem claim_C3_counterexample :
    (executeNaturalLanguageQuery (fun _ _ => .error "boom")
        (fun _ _ _ => .ok none) (fun _ _ _ => .ok "") c3Ctx).success = false ∧
    (executeNaturalLanguageQuery (fun _ _ => .error "boom")
        (fun _ _ _ => .ok none) (fun _ _ _ => .ok "") c3Ctx).error = some "boom" ∧
    (executeNaturalLanguageQuery (fun _ _ => .error "boom")
        (fun _ _ _ => .ok none) (fun _ _ _ => .ok "") c3Ctx).formatted_result
      = "❌ 查询失败: boom" ∧
    ("❌ 查询失败: boom" : String) ≠ "" := by
  refine ⟨rfl, rfl, rfl, ?_⟩
  decide

/-- C3 (amended): whenever any stage (build, execute, format) raises, the
call does not propagate the exception: it returns `success = false`, the
exception text as `error`, and the non-empty marker string
`"❌ 查询失败: {e}"` as `formatted_result` (not an empty field). -/
theorem claim_C3_stage_exceptions
    (build : String → ProtocolContext → Except String QueryResult)
    (execQ : String → String → List (String × PyVal) → Except String (Option GraphData))
    (fmt : GraphData → String → String → Except String String)
    (ctx : NLContext) :
    (∀ e, build ctx.user_query (nlProtocolContext ctx) = .error e →
        executeNaturalLanguageQuery build execQ fmt ctx = excResult e) ∧
    (∀ qr e, build ctx.user_query (nlProtocolContext ctx) = .ok qr →
        qr.query ≠ "" → execQ ctx.subgraph_id qr.query qr.varMap = .error e →
        executeNaturalLanguageQuery build execQ fmt ctx = excResult e) ∧
    (∀ qr d e, build ctx.user_query (nlProtocolContext ctx) = .ok qr →
        qr.query ≠ "" → execQ ctx.subgraph_id qr.query qr.varMap = .ok (some d) →
        d ≠ [] → fmt d qr.explanation ctx.user_query = .error e →
        executeNaturalLanguageQuery build execQ fmt ctx = excResult e) ∧
    (∀ e, (excResult e).success = false ∧ (excResult e).error = some e ∧
        (excResult e).formatted_result ≠ "") := by
  refine ⟨?_, ?_, ?_, ?_⟩
  · intro e hb
    simp [executeNaturalLanguageQuery, hb]
  · intro qr e hb hq hx
    simp [executeNaturalLanguageQuery, hb, hq, hx]
  · intro qr d e hb hq hx hd hf
    simp [executeNaturalLanguageQuery, hb, hq, hx, hd, hf]
  · intro e
    refine ⟨rfl, rfl, ?_⟩
    intro h
    have := congrArg String.data h
    simp [excResult, String.data_append] at this

/-- Witness for `claim_C3_stage_exceptions` at a concrete input. -/
theorem claim_C3_stage_exceptions_witness :
    executeNaturalLanguageQuery (fun _ _ => .error "transport down")
        (fun _ _ _ => .ok none) (fun _ _ _ => .ok "") c3Ctx
      = excResult "transport down" :=
  (claim_C3_stage_exceptions (fun _ _ => .error "transport down")
    (fun _ _ _ => .ok none) (fun _ _ _ => .ok "") c3Ctx).1 "transport down" rfl

/-! ## Protocol Analyzer (`protocol_analyzer.py`) -/

/-- Does `hay` start with `needle`? (helper for Python's `needle in hay`). -/
def leadMatch : List Char → List Char → Bool
  | [], _ => true
  | _ :: _, [] => false
  | a :: t, b :: u => a == b && leadMatch t u

/-- Contiguous-substring test (helper for Python's `needle in hay`). -/
def subMatch (needle : List Char) : List Char → Bool
  | [] => leadMatch needle []
  | b :: u => leadMatch needle (b :: u) || subMatch needle u

/-- Python `needle in hay` on strings. -/
def pyIn (needle hay : String) : Bool := subMatch needle.data hay.data

/-- `ProtocolAnalyzer.protocol_aliases`, in insertion order. -/
def protocol_aliases : List (String × String) :=
  [("uni", "uniswap"), ("uniswap", "uniswap"), ("univ2", "uniswap"),
   ("univ3", "uniswap"), ("aave", "aave"), ("compound", "compound"),
   ("comp", "compound"), ("curve", "curve"), ("crv", "curve"),
   ("sushi", "sushiswap"), ("sushiswap", "sushiswap"),
   ("balancer", "balancer"), ("bal", "balancer"),
   ("pancake", "pancakeswap"), ("pancakeswap", "pancakeswap"),
   ("cake", "pancakeswap"), ("gmx", "gmx"), ("lido", "lido"),
   ("maker", "maker"), ("mkr", "maker"), ("synthetix", "synthetix"),
   ("snx", "synthetix"), ("yearn", "yearn"), ("yfi", "yearn")]

/-- `ProtocolAnalyzer.network_aliases`, in insertion order. -/
def network_aliases : List (String × String) :=
  [("ethereum", "ethereum"), ("eth", "ethereum"), ("mainnet", "ethereum"),
   ("以太坊", "ethereum"), ("polygon", "polygon"), ("matic", "polygon"),
   ("马蹄", "polygon"), ("arbitrum", "arbitrum"), ("arb", "arbitrum"),
   ("optimism", "optimism"), ("op", "optimism"), ("bsc", "bsc"),
   ("binance", "bsc"), ("bnb", "bsc"), ("avalanche", "avalanche"),
   ("avax", "avalanche"), ("fantom", "fantom"), ("ftm", "fantom")]

/-- `ProtocolInfo` dataclass (confidence as a rational). -/
structure ProtocolInfo where
  protocol : String
  network : String
  version : Option String
  confidence : ℚ
  deriving Repr, DecidableEq

/-- `ProtocolAnalysisResult` dataclass. -/
structure ProtocolAnalysisResult where
  protocols : List ProtocolInfo
  raw_query : String
  overall_confidence : ℚ
  deriving Repr, DecidableEq

/-- `re.search(r'v(\d+)', s)`: first `v` immediately followed by a digit,
returning `"v" + digits`. -/
def findVersionToken : List Char → Option String
  | [] => none
  | c :: t =>
      if c == 'v' && (match t with | d :: _ => d.isDigit | [] => false) then
        some ("v" ++ String.mk (t.takeWhile Char.isDigit))
      else findVersionToken t

/-- The DEX keywords of the no-protocol heuristic. -/
def dexKeywords : List String := ["dex", "swap", "pool", "liquidity", "amm"]

/-- The lending keywords of the no-protocol heuristic. -/
def lendingKeywords : List String := ["lend", "borrow", "deposit", "供应", "借贷"]

/-- `ProtocolAnalyzer._rule_based_analyze`. -/
def ruleBasedAnalyze (user_query : String) : ProtocolAnalysisResult :=
  let query_lower := pyLower user_query
  let found := protocol_aliases.foldl
    (fun acc p =>
      if pyIn p.1 query_lower && !(acc.any (fun q => q.protocol == p.2)) then
        acc ++ [ProtocolInfo.mk p.2 "ethereum" none 0.8]
      else acc) []
  let detected_network :=
    ((network_aliases.find? (fun p => pyIn p.1 query_lower)).map Prod.snd).getD "ethereum"
  let found := found.map (fun p => { p with network := detected_network })
  let found :=
    match findVersionToken query_lower.data with
    | some v => found.map (fun p => { p with version := some v })
    | none => found
  let found :=
    if found.isEmpty then
      if dexKeywords.any (fun k => pyIn k query_lower) then
        [ProtocolInfo.mk "uniswap" detected_network none 0.5,
         ProtocolInfo.mk "sushiswap" detected_network none 0.5]
      else if lendingKeywords.any (fun k => pyIn k query_lower) then
        [ProtocolInfo.mk "aave" detected_network none 0.5,
         ProtocolInfo.mk "compound" detected_network none 0.5]
      else []
    else found
  let overall_confidence : ℚ :=
    if found.isEmpty then 0
    else (found.map ProtocolInfo.confidence).sum / found.length
  ⟨found, user_query, overall_confidence⟩

/-- `ProtocolAnalyzer.analyze_query`: with a `llm_client` the LLM path is
tried first and any exception falls back to the rule-based path; without
one the rule-based path runs directly. The LLM path's outcome (parse +
`_build_analysis_result`) is an oracle. -/
def analyzeQuery (llm : Option (Except String ProtocolAnalysisResult))
    (user_query : String) : ProtocolAnalysisResult :=
  match llm with
  | some (.ok r) => r
  | some (.error _) => ruleBasedAnalyze user_query
  | none => ruleBasedAnalyze user_query

/-- If no alias occurs in the lowered query, the alias-scanning fold of
`_rule_based_analyze` leaves its accumulator unchanged. -/
theorem protocolFold_no_alias (ql : String) (l : List (String × String))
    (acc : List ProtocolInfo) (h : l.all (fun p => !pyIn p.1 ql)) :
    l.foldl (fun acc p =>
      if pyIn p.1 ql && !(acc.any (fun q => q.protocol == p.2)) then
        acc ++ [ProtocolInfo.mk p.2 "ethereum" none 0.8]
      else acc) acc = acc := by
  induction l generalizing acc with
  | nil => rfl
  | cons hd t ih =>
      simp only [List.all_cons, Bool.and_eq_true, Bool.not_eq_true'] at h
      simp only [List.foldl_cons, h.1, Bool.false_and, if_neg Bool.false_ne_true]
      exact ih acc (by simpa using h.2)

/-- C4: the claim fails on domain-keyword heuristics: "pool stats" contains
no recognizable protocol alias (first conjunct), yet the analyzer — with no
LLM client, so on the rule-based path — seeds the two default DEX protocols
at confidence 0.5, giving non-empty mentions and overall confidence 1/2,
not 0. -/
theorem claim_C4_counterexample :
    protocol_aliases.all (fun p => !pyIn p.1 (pyLower "pool stats")) = true ∧
    (analyzeQuery none "pool stats").protocols.map ProtocolInfo.protocol
      = ["uniswap", "sushiswap"] ∧
    (analyzeQuery none "pool stats").overall_confidence = 1 / 2 := by
  have hfold := protocolFold_no_alias (pyLower "pool stats") protocol_aliases [] (by decide)
  have hnet : network_aliases.find? (fun p => pyIn p.1 (pyLower "pool stats")) = none := by
    decide
  have hver : findVersionToken (pyLower "pool stats").data = none := by decide
  have hdex : dexKeywords.any (fun k => pyIn k (pyLower "pool stats")) = true := by decide
  refine ⟨by decide, ?_, ?_⟩
  · show (ruleBasedAnalyze "pool stats").protocols.map ProtocolInfo.protocol = _
    unfold ruleBasedAnalyze
    dsimp only
    rw [hfold]
    simp [hnet, hver, hdex]
  · show (ruleBasedAnalyze "pool stats").overall_confidence = _
    unfold ruleBasedAnalyze
    dsimp only
    rw [hfold]
    simp [hnet, hver, hdex]
    norm_num

/-- C4 (amended): if the query contains no protocol alias *and* none of the
DEX / lending heuristic keywords, then `analyze` — with no LLM client, or
with an LLM path that raises (both reach the rule-based path) — returns an
empty mention list with overall confidence 0, and raises no exception (the
embedding is a total function). -/
theorem claim_C4_no_token_empty (user_query : String)
    (llm : Option (Except String ProtocolAnalysisResult))
    (hllm : llm = none ∨ ∃ e, llm = some (.error e))
    (hal : protocol_aliases.all (fun p => !pyIn p.1 (pyLower user_query)) = true)
    (hdex : dexKeywords.all (fun k => !pyIn k (pyLower user_query)) = true)
    (hlend : lendingKeywords.all (fun k => !pyIn k (pyLower user_query)) = true) :
    (analyzeQuery llm user_query).protocols = [] ∧
    (analyzeQuery llm user_query).overall_confidence = 0 := by
  have hrule : analyzeQuery llm user_query = ruleBasedAnalyze user_query := by
    rcases hllm with h | ⟨e, h⟩ <;> subst h <;> rfl
  rw [hrule]
  have hfold := protocolFold_no_alias (pyLower user_query) protocol_aliases [] hal
  have hdex' : dexKeywords.any (fun k => pyIn k (pyLower user_query)) = false := by
    simp only [List.any_eq_false]
    intro k hk
    have := List.all_eq_true.mp hdex k hk
    simpa using this
  have hlend' : lendingKeywords.any (fun k => pyIn k (pyLower user_query)) = false := by
    simp only [List.any_eq_false]
    intro k hk
    have := List.all_eq_true.mp hlend k hk
    simpa using this
  unfold ruleBasedAnalyze
  dsimp only
  rw [hfold]
  cases hver : findVersionToken (pyLower user_query).data <;>
    simp [hver, hdex', hlend']

/-- Witness for `claim_C4_no_token_empty` at a concrete input. -/
theorem claim_C4_no_token_empty_witness :
    (analyzeQuery none "hello world").protocols = [] ∧
    (analyzeQuery none "hello world").overall_confidence = 0 :=
  claim_C4_no_token_empty "hello world" none (Or.inl rfl)
    (by decide) (by decide) (by decide)

/-! ## Query Builder (`graphql_builder.py`)

`build_query` wraps everything in one `try/except`: the generative model
invocation together with `_parse_llm_response` is the oracle `llmParsed`
(an `.error` is a model failure or an unparseable response); its `.ok` dict
goes through `_validate_and_fix_query`, and any failure falls back to the
deterministic `_get_fallback_query`. -/

/-- Python's regex `\s` on ASCII. -/
def isPySpace (c : Char) : Bool :=
  c == ' ' || c == '\t' || c == '\n' || c == '\r' || c == '\x0b' || c == '\x0c'

/-- Python's regex `\w` on ASCII. -/
def isWordChar (c : Char) : Bool := c.isAlphanum || c == '_'

/-- `re.sub(r'\s+', ' ', ·)`: each maximal whitespace run becomes one
space. The flag records whether we are inside a run already handled. -/
def squashWsAux : List Char → Bool → List Char
  | [], _ => []
  | c :: rest, inRun =>
      if isPySpace c then
        if inRun then squashWsAux rest true
        else ' ' :: squashWsAux rest true
      else c :: squashWsAux rest false

def squashWs (l : List Char) : List Char := squashWsAux l false

/-- Python `str.strip()`: drop whitespace from both ends. -/
def stripChars (l : List Char) : List Char :=
  ((l.dropWhile isPySpace).reverse.dropWhile isPySpace).reverse

/-- `re.sub(r'\s+', ' ', query).strip()` of `_validate_and_fix_query`. -/
def collapseAndStrip (s : String) : String := ⟨stripChars (squashWs s.data)⟩

/-- The tail of `re.search(r'query\s+\w*\s*(?:\([^)]*\))?\s*\{', ·)` after
the literal `query`: `\s+ \w* \s*` then an optional parenthesised group
then `\{`. The character classes are pairwise disjoint, so greedy maximal
munch is a faithful matcher. -/
def matchHeaderRest : List Char → Bool
  | [] => false
  | c :: rest =>
      isPySpace c &&
      (let r1 := rest.dropWhile isPySpace
       let r2 := r1.dropWhile isWordChar
       let r3 := r2.dropWhile isPySpace
       match r3 with
       | '(' :: r4 =>
           (match r4.dropWhile (fun ch => !(ch == ')')) with
            | ')' :: r6 =>
                (match r6.dropWhile isPySpace with
                 | '{' :: _ => true
                 | _ => false)
            | _ => false)
       | '{' :: _ => true
       | _ => false)

/-- Does the header pattern match at this position? -/
def matchHeaderAt : List Char → Bool
  | a :: b :: c :: d :: e :: rest =>
      a == 'q' && b == 'u' && c == 'e' && d == 'r' && e == 'y' && matchHeaderRest rest
  | _ => false

/-- `re.search`: try the header pattern at every position. -/
def searchQueryHeader : List Char → Bool
  | [] => false
  | c :: t => matchHeaderAt (c :: t) || searchQueryHeader t

def hasQueryHeader (s : String) : Bool := searchQueryHeader s.data

/-- `GraphQLBuilder._validate_and_fix_query`: reject an empty query
document (raising, caught by `build_query`), wrap a query missing the
header, inject `first = 10` for an unresolved `$first`, collapse
whitespace. -/
def validateAndFix (r : QueryResult) : Except String QueryResult :=
  if r.query = "" then .error "无效的查询格式"
  else
    let query :=
      if hasQueryHeader r.query then r.query
      else "query GeneratedQuery " ++ r.query
    let varMap :=
      if pyIn "$first" query && (dictGet r.varMap "first").isNone then
        dictSet r.varMap "first" (.int 10)
      else r.varMap
    .ok { query := collapseAndStrip query, varMap := varMap,
          explanation := r.explanation }

/-- Python `str.upper` (ASCII model). -/
def pyUpper (s : String) : String := ⟨s.data.map Char.toUpper⟩

/-- The static ticker list of `_get_fallback_query`. -/
def common_tokens : List String :=
  ["eth", "weth", "usdc", "usdt", "dai", "wbtc", "uni", "link", "aave", "matic"]

/-- Pool-related keywords of `_get_fallback_query`. -/
def poolKeywords : List String := ["池", "pool", "交易对", "pair", "流动性"]

/-- Token-related keywords of `_get_fallback_query`. -/
def tokenKeywords : List String := ["代币", "token", "币"]

def specificPoolsQuery : String :=
  "\n" ++
  "                        query SpecificPools($token0: String!, $token1: String!, $first: Int!) \x7b\n" ++
  "                            pools(\n" ++
  "                                where: \x7b\n" ++
  "                                    or: [\n" ++
  "                                        \x7btoken0_: \x7bsymbol_contains_nocase: $token0\x7d, token1_: \x7bsymbol_contains_nocase: $token1\x7d\x7d,\n" ++
  "                                        \x7btoken0_: \x7bsymbol_contains_nocase: $token1\x7d, token1_: \x7bsymbol_contains_nocase: $token0\x7d\x7d\n" ++
  "                                    ]\n" ++
  "                                \x7d,\n" ++
  "                                first: $first,\n" ++
  "                                orderBy: totalValueLockedUSD,\n" ++
  "                                orderDirection: desc\n" ++
  "                            ) \x7b\n" ++
  "                                id\n" ++
  "                                token0 \x7b symbol name decimals \x7d\n" ++
  "                                token1 \x7b symbol name decimals \x7d\n" ++
  "                                feeTier\n" ++
  "                                totalValueLockedUSD\n" ++
  "                                volumeUSD\n" ++
  "                                liquidity\n" ++
  "                            \x7d\n" ++
  "                        \x7d\n" ++
  "                    "

def fallbackPoolsQuery : String :=
  "\n" ++
  "                    query FallbackPools($first: Int!) \x7b\n" ++
  "                        pools(first: $first, orderBy: totalValueLockedUSD, orderDirection: desc) \x7b\n" ++
  "                            id\n" ++
  "                            token0 \x7b symbol name \x7d\n" ++
  "                            token1 \x7b symbol name \x7d\n" ++
  "                            feeTier\n" ++
  "                            totalValueLockedUSD\n" ++
  "                            volumeUSD\n" ++
  "                        \x7d\n" ++
  "                    \x7d\n" ++
  "                "

def fallbackTokenQuery : String :=
  "\n" ++
  "                    query FallbackToken($symbol: String!) \x7b\n" ++
  "                        tokens(\n" ++
  "                            where: \x7bsymbol_contains_nocase: $symbol\x7d,\n" ++
  "                            first: 1\n" ++
  "                        ) \x7b\n" ++
  "                            id\n" ++
  "                            symbol\n" ++
  "                            name\n" ++
  "                            decimals\n" ++
  "                            totalValueLockedUSD\n" ++
  "                            volumeUSD\n" ++
  "                        \x7d\n" ++
  "                    \x7d\n" ++
  "                "

def fallbackTokensQuery : String :=
  "\n" ++
  "                    query FallbackTokens($first: Int!) \x7b\n" ++
  "                        tokens(first: $first, orderBy: totalValueLockedUSD, orderDirection: desc) \x7b\n" ++
  "                            id\n" ++
  "                            symbol\n" ++
  "                            name\n" ++
  "                            totalValueLockedUSD\n" ++
  "                            volumeUSD\n" ++
  "                        \x7d\n" ++
  "                    \x7d\n" ++
  "                "

def fallbackMetaQuery : String :=
  "\n" ++
  "                query FallbackMeta \x7b\n" ++
  "                    _meta \x7b\n" ++
  "                        block \x7b number timestamp \x7d\n" ++
  "                        deployment\n" ++
  "                        hasIndexingErrors\n" ++
  "                    \x7d\n" ++
  "                \x7d\n" ++
  "            "

/-- `GraphQLBuilder._get_fallback_query`: a deterministic plan chosen by
keyword + ticker matching on the natural-language query; the
`protocol_context` argument is accepted but unused, as in the source. -/
def getFallbackQuery (query : String) (_protocol_context : ProtocolContext) :
    QueryResult :=
  let query_lower := pyLower query
  let token_symbols := (common_tokens.filter (fun t => pyIn t query_lower)).map pyUpper
  if poolKeywords.any (fun w => pyIn w query_lower) then
    if 2 ≤ token_symbols.length then
      { query := specificPoolsQuery
        varMap := [("token0", .str (token_symbols.headD "")),
                   ("token1", .str ((token_symbols.drop 1).headD "")),
                   ("first", .int 10)]
        explanation := "Fallback: 查询所有 " ++ token_symbols.headD "" ++ "/"
          ++ (token_symbols.drop 1).headD "" ++ " 池子（包括所有费率）" }
    else
      { query := fallbackPoolsQuery, varMap := [("first", .int 10)],
        explanation := "Fallback: 返回 TVL 最高的池子" }
  else if tokenKeywords.any (fun w => pyIn w query_lower) && !token_symbols.isEmpty then
    { query := fallbackTokenQuery,
      varMap := [("symbol", .str (token_symbols.headD ""))],
      explanation := "Fallback: 查询 " ++ token_symbols.headD "" ++ " 代币信息" }
  else if tokenKeywords.any (fun w => pyIn w query_lower) then
    { query := fallbackTokensQuery, varMap := [("first", .int 10)],
      explanation := "Fallback: 返回 TVL 最高的代币" }
  else
    { query := fallbackMetaQuery, varMap := [],
      explanation := "Fallback: 返回子图元数据" }

/-- `GraphQLBuilder.build_query`: parse the model response, validate and
repair it; on any failure return the deterministic fallback plan. -/
def buildQuery (llmParsed : Except String QueryResult) (nl : String)
    (pc : ProtocolContext) : QueryResult :=
  match llmParsed with
  | .error _ => getFallbackQuery nl pc
  | .ok parsed =>
      match validateAndFix parsed with
      | .ok validated => validated
      | .error _ => getFallbackQuery nl pc

/-- Variable names referenced (`$name`) in a query document. -/
def refVarsAux : List Char → List String
  | [] => []
  | c :: t =>
      if c == '$' then String.mk (t.takeWhile isWordChar) :: refVarsAux t
      else refVarsAux t

def referencedVars (s : String) : List String := refVarsAux s.data

/-! ### Builder support lemmas -/

theorem mem_dropWhile_of_neg {p : Char → Bool} {c : Char} (hc : p c = false) :
    ∀ l : List Char, c ∈ l → c ∈ l.dropWhile p := by
  intro l hl
  induction l with
  | nil => cases hl
  | cons a t ih =>
      by_cases ha : p a = true
      · rw [List.dropWhile_cons_of_pos ha]
        rcases List.mem_cons.mp hl with h | h
        · subst h; rw [hc] at ha; cases ha
        · exact ih h
      · rw [List.dropWhile_cons_of_neg ha]
        exact hl

theorem mem_squashWsAux {c : Char} (hc : isPySpace c = false) :
    ∀ (l : List Char) (b : Bool), c ∈ l → c ∈ squashWsAux l b := by
  intro l
  induction l with
  | nil => intro b h; cases h
  | cons a t ih =>
      intro b h
      rcases List.mem_cons.mp h with h | h
      · subst h
        simp only [squashWsAux, hc]
        exact List.mem_cons_self _ _
      · cases ha : isPySpace a with
        | true =>
            cases b with
            | true =>
                rw [show squashWsAux (a :: t) true = squashWsAux t true from by
                  simp [squashWsAux, ha]]
                exact ih true h
            | false =>
                rw [show squashWsAux (a :: t) false = ' ' :: squashWsAux t true from by
                  simp [squashWsAux, ha]]
                exact List.mem_cons_of_mem _ (ih true h)
        | false =>
            rw [show squashWsAux (a :: t) b = a :: squashWsAux t false from by
              simp [squashWsAux, ha]]
            exact List.mem_cons_of_mem _ (ih false h)

theorem mem_stripChars {c : Char} (hc : isPySpace c = false) (l : List Char)
    (h : c ∈ l) : c ∈ stripChars l := by
  unfold stripChars
  rw [List.mem_reverse]
  refine mem_dropWhile_of_neg hc _ ?_
  rw [List.mem_reverse]
  exact mem_dropWhile_of_neg hc _ h

theorem collapseAndStrip_ne_empty {s : String} {c : Char}
    (hc : isPySpace c = false) (h : c ∈ s.data) : collapseAndStrip s ≠ "" := by
  intro heq
  have hmem : c ∈ stripChars (squashWs s.data) :=
    mem_stripChars hc _ (mem_squashWsAux hc _ false h)
  have hdata := congrArg String.data heq
  simp only [collapseAndStrip] at hdata
  rw [hdata] at hmem
  cases hmem

theorem matchHeaderAt_mem : ∀ l : List Char, matchHeaderAt l = true → 'q' ∈ l := by
  intro l h
  match l with
  | [] => simp [matchHeaderAt] at h
  | [a] => simp [matchHeaderAt] at h
  | [a, b] => simp [matchHeaderAt] at h
  | [a, b, c] => simp [matchHeaderAt] at h
  | [a, b, c, d] => simp [matchHeaderAt] at h
  | a :: b :: c :: d :: e :: rest =>
      simp only [matchHeaderAt, Bool.and_eq_true, beq_iff_eq] at h
      have : a = 'q' := h.1.1.1.1.1
      subst this
      exact List.mem_cons_self _ _

theorem searchQueryHeader_mem (l : List Char) (h : searchQueryHeader l = true) :
    'q' ∈ l := by
  induction l with
  | nil => simp [searchQueryHeader] at h
  | cons a t ih =>
      simp only [searchQueryHeader, Bool.or_eq_true] at h
      rcases h with h | h
      · exact matchHeaderAt_mem _ h
      · exact List.mem_cons_of_mem _ (ih h)

theorem getFallbackQuery_ne_empty (nl : String) (pc : ProtocolContext) :
    (getFallbackQuery nl pc).query ≠ "" := by
  unfold getFallbackQuery
  dsimp only
  split
  · split
    · dsimp only; decide
    · dsimp only; decide
  · split
    · dsimp only; decide
    · split
      · dsimp only; decide
      · dsimp only; decide

theorem validateAndFix_ok_query_ne_empty (r out : QueryResult)
    (h : validateAndFix r = .ok out) : out.query ≠ "" := by
  unfold validateAndFix at h
  by_cases hq : r.query = ""
  · rw [if_pos hq] at h
    cases h
  · rw [if_neg hq] at h
    dsimp only at h
    by_cases hh : hasQueryHeader r.query = true
    · rw [if_pos hh] at h
      have hqmem : 'q' ∈ r.query.data := searchQueryHeader_mem _ hh
      have := collapseAndStrip_ne_empty (s := r.query) (by decide) hqmem
      cases h
      exact this
    · rw [if_neg hh] at h
      have hqmem : 'q' ∈ ("query GeneratedQuery " ++ r.query).data := by
        rw [String.data_append]
        exact List.mem_append_left _ (by decide)
      have := collapseAndStrip_ne_empty
        (s := "query GeneratedQuery " ++ r.query) (by decide) hqmem
      cases h
      exact this

/-- C5: `build_query` never returns a plan with an empty query document —
on the validated path `_validate_and_fix_query` rejects empty documents and
whitespace collapse keeps a non-space character, and every deterministic
fallback plan carries a non-empty document; and it never raises (the
embedding is a total function, mirroring the method-wide `try/except`). -/
theorem claim_C5_build_query_nonempty (llmParsed : Except String QueryResult)
    (nl : String) (pc : ProtocolContext) :
    (buildQuery llmParsed nl pc).query ≠ "" := by
  cases llmParsed with
  | error e =>
      show (getFallbackQuery nl pc).query ≠ ""
      exact getFallbackQuery_ne_empty nl pc
  | ok parsed =>
      show (match validateAndFix parsed with
            | .ok validated => validated
            | .error _ => getFallbackQuery nl pc).query ≠ ""
      cases hv : validateAndFix parsed with
      | ok validated =>
          simpa using validateAndFix_ok_query_ne_empty parsed validated hv
      | error e =>
          simpa using getFallbackQuery_ne_empty nl pc

/-- A protocol context as built by the engine, for the C7 theorems. -/
def c7Context : ProtocolContext :=
  { name := "Uniswap Protocol", network := "ethereum",
    description := "Uniswap Protocol on Ethereum", entities := [],
    categories := ["DeFi"] }

/-- A parseable model response whose query references `$bar` without
binding it. -/
def c7Parsed : QueryResult :=
  { query := "query Q($bar: Int) \x7b tokens(first: $bar) \x7b id \x7d \x7d",
    varMap := [], explanation := "model output" }

/-- C7: the claim fails: validation/repair only ever injects a default for
`"first"`. A plan built from model output referencing `$bar` with an empty
variables dict passes validation unchanged: `$bar` is referenced by name
but absent from the variables map, and nothing is injected. -/
theorem claim_C7_counterexample :
    "bar" ∈ referencedVars (buildQuery (.ok c7Parsed) "list tokens" c7Context).query ∧
    dictGet (buildQuery (.ok c7Parsed) "list tokens" c7Context).varMap "bar" = none ∧
    (buildQuery (.ok c7Parsed) "list tokens" c7Context).varMap = [] := by
  refine ⟨by decide, by decide, by decide⟩

/-- C7 (amended): the only injected default is for `"first"`: when the
(possibly wrapped) query document contains `$first` and `"first"` is not
bound, validation adds the binding `first = 10`; defaults for other
variable names are never injected (see the counterexample). -/
theorem claim_C7_first_default (r out : QueryResult)
    (h : validateAndFix r = .ok out)
    (hfirst : pyIn "$first"
      (if hasQueryHeader r.query then r.query
       else "query GeneratedQuery " ++ r.query) = true)
    (hmiss : dictGet r.varMap "first" = none) :
    out.varMap = dictSet r.varMap "first" (.int 10) ∧
    dictGet out.varMap "first" = some (.int 10) := by
  unfold validateAndFix at h
  by_cases hq : r.query = ""
  · rw [if_pos hq] at h
    cases h
  · rw [if_neg hq] at h
    dsimp only at h
    rw [hfirst, hmiss] at h
    simp only [Option.isNone_none, Bool.and_true, if_pos rfl] at h
    cases h
    exact ⟨rfl, dictGet_dictSet_self _ _ _⟩

/-- A model response referencing `$first` without binding it. -/
def c7WitnessIn : QueryResult :=
  { query := "query F($first: Int) \x7b pools(first: $first) \x7b id \x7d \x7d",
    varMap := [], explanation := "" }

/-- Its validated form: `first = 10` injected. -/
def c7WitnessOut : QueryResult :=
  { query := "query F($first: Int) \x7b pools(first: $first) \x7b id \x7d \x7d",
    varMap := [("first", PyVal.int 10)], explanation := "" }

/-- Witness for `claim_C7_first_default` at a concrete input. -/
theorem claim_C7_first_default_witness :
    c7WitnessOut.varMap = dictSet [] "first" (.int 10) ∧
    dictGet c7WitnessOut.varMap "first" = some (.int 10) :=
  claim_C7_first_default c7WitnessIn c7WitnessOut rfl (by decide) rfl

/-! ## Dataset Discovery (`subgraph_discovery.py`) -/

/-- `DiscoveryResult` dataclass (signal as a rational). -/
structure DiscoveryResult where
  subgraph_id : String
  name : String
  network : String
  signal : ℚ
  is_synced : Bool
  description : String := ""
  deriving Repr, DecidableEq

/-- The well-known meta-index dataset id of
`API_ENDPOINTS["graph_network_subgraph"]`. -/
def GRAPH_NETWORK_SUBGRAPH_ID : String :=
  "DZz4kDTdmzWLWsV373w2bSmoar3umKKH9y82SUKr5qmp"

/-- `get_graph_network_endpoint()` (its key-missing branch is unreachable
in `__init__`, which checks the key first). -/
def getGraphNetworkEndpoint (apiKey : String) : String :=
  "https://gateway.thegraph.com/api/" ++ apiKey ++ "/subgraphs/id/"
    ++ GRAPH_NETWORK_SUBGRAPH_ID

/-- `SubgraphDiscovery` state after `__init__`. -/
structure SubgraphDiscovery where
  api_key : String
  endpoint : Option String
  deriving Repr, DecidableEq

/-- `SubgraphDiscovery.__init__`: `api_key or GRAPH_API_KEY`; without a key
the endpoint is `None`, which disables all searches. -/
def discoveryInit (apiKeyArg : Option String) (globalKey : String) :
    SubgraphDiscovery :=
  let key :=
    match apiKeyArg with
    | some k => if k = "" then globalKey else k
    | none => globalKey
  if key = "" then ⟨key, none⟩ else ⟨key, some (getGraphNetworkEndpoint key)⟩

/-- The search-term loop of `_search_by_protocol_name`; each term costs one
`requests.post` (counted), `search` is the transport oracle (an HTTP/parse
failure is the empty candidate list, as in `_execute_search_query`). -/
def searchTermsLoop (search : String → List DiscoveryResult)
    (protocol network : String) :
    List String → Nat → Option DiscoveryResult × Nat
  | [], calls => (none, calls)
  | t :: rest, calls =>
      match (search t).find? (fun r =>
          pyLower r.network == pyLower network &&
          pyIn (pyLower protocol) (pyLower r.name)) with
      | some r => (some r, calls + 1)
      | none => searchTermsLoop search protocol network rest (calls + 1)

/-- The search terms of `_search_by_protocol_name`. -/
def searchTerms (protocol : String) (version : Option String) : List String :=
  [protocol] ++
    (match version with
     | some v => if v ≠ "" then [protocol ++ " " ++ v, protocol ++ v] else []
     | none => [])

/-- `SubgraphDiscovery.find`, with an explicit count of network calls:
without an endpoint it returns `None` immediately at cost 0; otherwise
strategy 1 (name search per term) then strategy 2 (one high-signal listing,
oracle `highSignal`, filtered by network and name/description match). -/
def discoveryFind (d : SubgraphDiscovery)
    (search : String → List DiscoveryResult) (highSignal : List DiscoveryResult)
    (protocol network : String) (version : Option String) :
    Option String × Nat :=
  match d.endpoint with
  | none => (none, 0)
  | some _ =>
      match searchTermsLoop search protocol network (searchTerms protocol version) 0 with
      | (some r, calls) => (some r.subgraph_id, calls)
      | (none, calls) =>
          match highSignal.find? (fun r =>
              pyLower r.network == pyLower network &&
              (pyIn (pyLower protocol) (pyLower r.name) ||
               pyIn (pyLower protocol) (pyLower r.description))) with
          | some r => (some r.subgraph_id, calls + 1)
          | none => (none, calls + 1)

/-- C9: with no gateway credential (`__init__` saw no key, so no endpoint),
`find` returns `None` immediately with zero network calls, whatever the
oracles would have answered; and `__init__` with neither an argument key
nor the `GRAPH_API_KEY` environment value indeed yields no endpoint. -/
theorem claim_C9_no_credential (d : SubgraphDiscovery)
    (search : String → List DiscoveryResult) (highSignal : List DiscoveryResult)
    (p n : String) (v : Option String) (hd : d.endpoint = none) :
    discoveryFind d search highSignal p n v = (none, 0) ∧
    (discoveryInit none "").endpoint = none := by
  constructor
  · unfold discoveryFind
    rw [hd]
  · rfl

/-- Witness for `claim_C9_no_credential` at a concrete input. -/
theorem claim_C9_no_credential_witness :
    discoveryFind (discoveryInit none "") (fun _ => []) [] "uniswap" "ethereum" none
      = (none, 0) ∧
    (discoveryInit none "").endpoint = none :=
  claim_C9_no_credential (discoveryInit none "") (fun _ => []) []
    "uniswap" "ethereum" none (by decide)

/-! ## `graph_tools.graph_multi_query` (C10) -/

/-- Python `s.split(sep)` for a one-character separator. -/
def splitOnChar (sep : Char) : List Char → List (List Char)
  | [] => [[]]
  | a :: t =>
      let rest := splitOnChar sep t
      if a == sep then [] :: rest
      else
        match rest with
        | h :: t' => (a :: h) :: t'
        | [] => [[a]]

/-- Python `str.strip()`. -/
def pyStrip (s : String) : String := ⟨stripChars s.data⟩

/-- `[q.strip() for q in queries.split(";") if q.strip()]`. -/
def nonEmptyParts (queries : String) : List String :=
  ((splitOnChar ';' queries.data).map (fun l => pyStrip ⟨l⟩)).filter (fun q => q ≠ "")

/-- `ERROR_MESSAGES["api_key_missing"]` of `graph_config.py`. -/
def API_KEY_MISSING_MESSAGE : String := "Graph 功能未配置，请设置 GRAPH_API_KEY 环境变量"

/-- `graph_multi_query`: the result text together with the list of queries
actually handed to `smart_graph_query` (the `smart` oracle). -/
def graphMultiQuery (apiKey : String) (smart : String → String)
    (queries : String) : String × List String :=
  if apiKey = "" then (API_KEY_MISSING_MESSAGE, [])
  else
    let query_list := nonEmptyParts queries
    if 5 < query_list.length then ("❌ 最多支持 5 个查询，请减少查询数量", [])
    else if query_list = [] then ("❌ 请提供至少一个查询", [])
    else
      let header := ["🔍 批量查询 (" ++ toString query_list.length ++ " 个查询)",
                     String.mk (List.replicate 50 '=')]
      let body := (List.enumFrom 1 query_list).flatMap (fun p =>
        ["\n📋 查询 " ++ toString p.1 ++ ": " ++ p.2,
         String.mk (List.replicate 30 '-'),
         smart p.2])
      (String.intercalate "\n" (header ++ body), query_list)

/-- C10: with the gateway key configured, an input with more than 5
non-empty semicolon-separated queries returns the too-many-queries message
and executes none of them; an input whose parts are all empty returns the
provide-at-least-one-query message and executes none. -/
theorem claim_C10_multi_query_limits (apiKey : String) (smart : String → String)
    (queries : String) (hkey : apiKey ≠ "") :
    (5 < (nonEmptyParts queries).length →
      graphMultiQuery apiKey smart queries
        = ("❌ 最多支持 5 个查询，请减少查询数量", [])) ∧
    (nonEmptyParts queries = [] →
      graphMultiQuery apiKey smart queries = ("❌ 请提供至少一个查询", [])) := by
  constructor
  · intro h
    unfold graphMultiQuery
    rw [if_neg hkey]
    dsimp only
    rw [if_pos h]
  · intro h
    unfold graphMultiQuery
    rw [if_neg hkey]
    dsimp only
    rw [h]
    simp
  
/-- Witness for `claim_C10_multi_query_limits` at a concrete input: six
queries is over the limit. -/
theorem claim_C10_multi_query_limits_witness :
    graphMultiQuery "gateway-key" id "a;b;c;d;e;f"
      = ("❌ 最多支持 5 个查询，请减少查询数量", []) :=
  (claim_C10_multi_query_limits "gateway-key" id "a;b;c;d;e;f" (by decide)).1
    (by decide)

end GraphTools
